import Mathlib

/-
Verification of the CASAVA-demultiplexed-data organizer
(ngi_pipeline/common/__init__.py) against its natural-language
specification.

The Python module is shallowly embedded below:
  * Python dicts (insertion-keyed) become association lists
    `List (String × α)`; dict mutation becomes explicit state passing.
  * Python exceptions become `Except PyError`.
  * The filesystem that `glob`/`os.path.exists` observe is passed in as
    explicit data (`FCTree`, `RState`), and `safe_makedir` (imported from
    ngi_pipeline.utils, not part of src/) is modelled from the spec.
  * Regular-expression matches used by the module are fixed-shape
    positional patterns and are transcribed as positional character
    matches on `String.toList`.
-/

set_option autoImplicit false

namespace NGI

/-- Python exception kinds raised (or raisable) by the embedded code. -/
inductive PyError where
  | runtimeError
  | assertionError
  | typeError
  | valueError
  | osError
  | nameError
  | keyError
  | reError
  deriving DecidableEq, Repr

/-- String suffix test, written via reversed prefix so suffix clashes are
easy to reason about; agrees with Python's `str.endswith`. -/
def strEndsWith (s suffix : String) : Bool :=
  List.isPrefixOf suffix.toList.reverse s.toList.reverse

/-- String prefix test; agrees with Python's `str.startswith`. -/
def strStartsWith (s pre : String) : Bool :=
  List.isPrefixOf pre.toList s.toList

/-- One left-to-right non-overlapping replacement pass over a character
list, as performed by Python's `str.replace`.  `fuel` bounds the
recursion; every step consumes at least one input character, so
`fuel = length input` is always enough. -/
def replaceFuel (pat rep : List Char) : Nat → List Char → List Char
  | _, [] => []
  | 0, rest => rest
  | Nat.succ n, c :: cs =>
    if pat.isPrefixOf (c :: cs) && !pat.isEmpty then
      rep ++ replaceFuel pat rep n (List.drop pat.length (c :: cs))
    else
      c :: replaceFuel pat rep n cs

/-- Python's `s.replace(pat, rep)`: replace every (leftmost-first,
non-overlapping) occurrence of `pat` in `s` by `rep`. -/
def pyReplace (s pat rep : String) : String :=
  String.mk (replaceFuel pat.toList rep.toList s.toList.length s.toList)

/-- Does `pat` occur as a contiguous sublist of the argument? -/
def containsSub (pat : List Char) : List Char → Bool
  | [] => pat.isEmpty
  | c :: cs => pat.isPrefixOf (c :: cs) || containsSub pat cs

/-- Lookup in an insertion-ordered association list (a Python dict read
`d[k]`, returning `none` where Python raises `KeyError`). -/
def lookupA {α : Type} : List (String × α) → String → Option α
  | [], _ => none
  | (k, v) :: rest, n => if k = n then some v else lookupA rest n

/-- Value replacement at an existing key of an association list (a Python
dict write `d[k] = v` for a key that is already present). -/
def updateA {α : Type} : List (String × α) → String → α → List (String × α)
  | [], _, _ => []
  | (k, v) :: rest, n, nv => if k = n then (n, nv) :: rest else (k, v) :: updateA rest n nv

/-- `NGIObject._add_subitem` (src lines 518-524): look the name up in
`_subitems`; only on `KeyError` construct a new subitem with
`self._subitem_type(name, dirname)` and insert it.  Returns the subitem
together with the (possibly extended) dict. -/
def addSubitem {α : Type} (subitems : List (String × α)) (mk : String → String → α)
    (name dirname : String) : α × List (String × α) :=
  match lookupA subitems name with
  | some it => (it, subitems)
  | none => (mk name dirname, subitems ++ [(name, mk name dirname)])

/-- `NGIFCID` (src lines 555-572): a flowcell run; `_subitems` is the flat
fastq file list `fastqs`. -/
structure NGIFCID where
  name : String
  dirname : String
  fastqs : List String
  deriving DecidableEq, Repr

/-- `NGISample` (src lines 548-552): `_subitems`/`fcids` maps run id to run. -/
structure NGISample where
  name : String
  dirname : String
  fcids : List (String × NGIFCID)
  deriving DecidableEq, Repr

/-- `NGIProject` (src lines 539-545): `_subitems`/`samples` maps sample
name to sample. -/
structure NGIProject where
  name : String
  dirname : String
  base_path : String
  samples : List (String × NGISample)
  deriving DecidableEq, Repr

/-- The `NGIFCID(name, dirname)` constructor: empty file list. -/
def mkNGIFCID (name dirname : String) : NGIFCID :=
  { name := name, dirname := dirname, fastqs := [] }

/-- The `NGISample(name, dirname)` constructor: empty run dict. -/
def mkNGISample (name dirname : String) : NGISample :=
  { name := name, dirname := dirname, fcids := [] }

/-- `NGIProject.add_sample = NGIObject._add_subitem` with subitem type
`NGISample`.  The mutated project is returned alongside the subitem. -/
def NGIProject.add_sample (p : NGIProject) (name dirname : String) :
    NGISample × NGIProject :=
  let r := addSubitem p.samples mkNGISample name dirname
  (r.1, { p with samples := r.2 })

/-- `NGISample.add_fcid = NGIObject._add_subitem` with subitem type
`NGIFCID`. -/
def NGISample.add_fcid (s : NGISample) (name dirname : String) :
    NGIFCID × NGISample :=
  let r := addSubitem s.fcids mkNGIFCID name dirname
  (r.1, { s with fcids := r.2 })

/-- A dynamically-typed Python value, as far as `add_fastq_files`'s
`type(fastq)` dispatch can observe it. -/
inductive PyVal where
  | str (s : String)
  | list (l : List String)
  | int (n : Int)
  | pyNone
  deriving DecidableEq, Repr

/-- Appending a list of fastq names to a run's file list (the
`self._subitems.extend(fastq)` branch of `add_fastq_files`). -/
def NGIFCID.addFastqList (f : NGIFCID) (l : List String) : NGIFCID :=
  { f with fastqs := f.fastqs ++ l }

/-- `NGIFCID.add_fastq_files` (src lines 565-572): `extend` for a list
argument, `append` for a str argument, `TypeError` otherwise (in which
case the file list is never touched, so the caller's run is unchanged). -/
def NGIFCID.add_fastq_files (f : NGIFCID) (fastq : PyVal) : Except PyError NGIFCID :=
  match fastq with
  | .list l => .ok (f.addFastqList l)
  | .str s => .ok { f with fastqs := f.fastqs ++ [s] }
  | _ => .error .typeError

/-- Decidable equality of embedded Python results, so concrete runs of
the embedded code can be checked by `decide`. -/
instance instDecEqExcept {ε α : Type} [DecidableEq ε] [DecidableEq α] :
    DecidableEq (Except ε α) := fun x y =>
  match x, y with
  | .ok a, .ok b =>
    if h : a = b then .isTrue (congrArg Except.ok h)
    else .isFalse (fun hc => h (Except.ok.inj hc))
  | .error a, .error b =>
    if h : a = b then .isTrue (congrArg Except.error h)
    else .isFalse (fun hc => h (Except.error.inj hc))
  | .ok _, .error _ => .isFalse (fun hc => Except.noConfusion hc)
  | .error _, .ok _ => .isFalse (fun hc => Except.noConfusion hc)

/-- Except-valued map over a list (Python `for` loop building a list,
aborting at the first raised exception), used for the nested project and
sample loops of `parse_casava_directory`. -/
def exceptMap {α β : Type} (f : α → Except PyError β) : List α → Except PyError (List β)
  | [] => .ok []
  | x :: xs =>
    match f x with
    | .error e => .error e
    | .ok y =>
      match exceptMap f xs with
      | .error e => .error e
      | .ok ys => .ok (y :: ys)

/-- The listing of one `Sample_*` directory as `glob` sees it:
its basename and the basenames of the files inside it. -/
structure SampleDirFS where
  dir_name : String
  files : List String
  deriving DecidableEq, Repr

/-- The listing of one `Unaligned*/Project_*` directory: `data_dir` is the
relative path of its `Unaligned*` parent (what
`os.path.relpath(os.path.dirname(project_dir), fc_dir)` yields). -/
structure ProjectDirFS where
  data_dir : String
  dir_name : String
  sample_dirs : List SampleDirFS
  deriving DecidableEq, Repr

/-- A flowcell directory tree as observed by `parse_casava_directory`:
run metadata fields (absent field = `KeyError` in the Python), the
relative basecall-statistics directories, and the project directories
found under `Unaligned*`. -/
structure FCTree where
  fc_path : String
  run_info_flowcell : Option String
  run_info_date : Option String
  runparams_fcpos : Option String
  basecall_stats_dirs : List String
  project_dirs : List ProjectDirFS
  deriving DecidableEq, Repr

/-- One parsed sample (the dict built at src lines 256-259). -/
structure SampleDesc where
  sample_dir : String
  sample_name : String
  files : List String
  samplesheet : String
  deriving DecidableEq, Repr

/-- One parsed project (the dict built at src lines 261-264). -/
structure ProjectDesc where
  data_dir : String
  project_dir : String
  project_name : String
  samples : List SampleDesc
  deriving DecidableEq, Repr

/-- The dict returned by `parse_casava_directory` (src lines 265-269). -/
structure FCDirStructure where
  fc_dir : String
  fc_name : String
  fc_date : String
  basecall_stats_dir : List String
  projects : List ProjectDesc
  deriving DecidableEq, Repr

/-- Files of a directory listing matched by the glob pattern `*.<suffix>`:
the name ends with the suffix and (glob hides dotfiles) does not start
with a dot. -/
def globSuffixFilter (suffix : String) (files : List String) : List String :=
  files.filter (fun f => strEndsWith f suffix && !(strStartsWith f "."))

/-- Src line 255: `os.path.basename(sample_dir).replace("Sample_","").replace('__','.')`.
Note `str.replace` removes every occurrence of `Sample_`, not only a
leading one. -/
def normalizeSampleName (raw : String) : String :=
  pyReplace (pyReplace raw "Sample_" "") "__" "."

/-- Src line 260: `os.path.basename(project_dir).replace("Project_","").replace('__','.')`. -/
def normalizeProjectName (raw : String) : String :=
  pyReplace (pyReplace raw "Project_" "") "__" "."

/-- Src lines 247-259: parse one sample directory.  `*.fastq.gz` files
are collected; the `assert len(samplesheet) == 1` raises
`AssertionError` (aborting the caller) unless exactly one `*.csv` file
is present. -/
def parseSampleDir (sd : SampleDirFS) : Except PyError SampleDesc :=
  match globSuffixFilter ".csv" sd.files with
  | [sheet] =>
    .ok { sample_dir := sd.dir_name
          sample_name := normalizeSampleName sd.dir_name
          files := globSuffixFilter ".fastq.gz" sd.files
          samplesheet := sheet }
  | _ => .error .assertionError

/-- Src lines 242-264: parse one project directory and its samples. -/
def parseProjectDir (pd : ProjectDirFS) : Except PyError ProjectDesc :=
  match exceptMap parseSampleDir pd.sample_dirs with
  | .error e => .error e
  | .ok smps =>
    .ok { data_dir := pd.data_dir
          project_dir := pd.dir_name
          project_name := normalizeProjectName pd.dir_name
          samples := smps }

/-- `parse_casava_directory` (src lines 183-269).  A missing metadata
field is the `KeyError` re-raised as `RuntimeError` (src lines 228-234);
the sample loop's assertion failure propagates as `AssertionError`. -/
def parse_casava_directory (t : FCTree) : Except PyError FCDirStructure :=
  match t.run_info_flowcell, t.run_info_date, t.runparams_fcpos with
  | some fcName, some fcDate, some fcPos =>
    match exceptMap parseProjectDir t.project_dirs with
    | .error e => .error e
    | .ok projs =>
      .ok { fc_dir := t.fc_path
            fc_name := fcPos ++ fcName
            fc_date := fcDate
            basecall_stats_dir := t.basecall_stats_dirs
            projects := projs }
  | _, _, _ => .error .runtimeError

/-- `os.path.join` for the two-component joins the module performs. -/
def pjoin (a b : String) : String := a ++ "/" ++ b

/-- `os.path.split`: split a path at its last slash. -/
def pySplit (p : String) : String × String :=
  let cs := p.toList
  let base := (cs.reverse.takeWhile (fun c => c ≠ '/')).reverse
  (String.mk (cs.take (cs.length - base.length - 1)), String.mk base)

/-- `os.path.basename`. -/
def pyBasename (p : String) : String := (pySplit p).2

/-- `os.path.abspath`, relative to a fixed working directory `cwd`. -/
def pyAbspath (cwd p : String) : String :=
  if strStartsWith p "/" then p else pjoin cwd p

/-- Filesystem/effect state threaded through the reconciler: the set of
existing paths and the log of directories actually created. -/
structure RState where
  fsPaths : List String
  createdDirs : List String
  deriving DecidableEq, Repr

/-- Modelled from the spec: `safe_makedir` (ngi_pipeline.utils, imported
at src line 25 but not part of src/) — idempotent directory creation
(spec section 4.2: "Directory creation must be idempotent (no error if the
directory already exists)").  Creating an existing directory is a no-op;
otherwise the path comes into existence and the creation is logged. -/
def safe_makedir (st : RState) (p : String) : RState :=
  if p ∈ st.fsPaths then st
  else { fsPaths := p :: st.fsPaths, createdDirs := st.createdDirs ++ [p] }

/-- `_copy_basecall_stats` (src lines 272-289): for each source stats
directory, create `destination_dir/basename(source_dir)`; the rsync of
htm/metrics/xml/xsl files is the external transfer capability and is not
modelled. -/
def copy_basecall_stats (st : RState) (destination_dir : String)
    (source_dirs : List String) : RState :=
  source_dirs.foldl (fun s d => safe_makedir s (pjoin destination_dir (pyBasename d))) st

/-- The regex `.*\.(fastq|fq)(\.gz|\.gzip|\.bz2)?$` used at src lines 177
and 444 (`re.match` anchored at the start, `.*` arbitrary): the name ends
in `.fastq` or `.fq`, optionally followed by one compression suffix. -/
def isFastqFile (s : String) : Bool :=
  strEndsWith s ".fastq" || strEndsWith s ".fq" ||
  strEndsWith s ".fastq.gz" || strEndsWith s ".fq.gz" ||
  strEndsWith s ".fastq.gzip" || strEndsWith s ".fq.gzip" ||
  strEndsWith s ".fastq.bz2" || strEndsWith s ".fq.bz2"

/-- The non-skipped part of the sample loop body (src lines 154-179):
create the sample and run destination directories (idempotently), upsert
the sample and run nodes on the shared project object, rsync the source
files (external, not modelled) and append the fastq-suffixed file names
to the run's file list.  Since the Python objects are mutated through
shared references, the mutated run and sample are written back into
their owners' dicts here. -/
def processSampleBody (fcRunId project_dir sample_name : String)
    (acc : NGIProject × RState) (sample : SampleDesc) : NGIProject × RState :=
  let project_obj := acc.1
  let st := acc.2
  let sample_dir := pjoin project_dir sample_name
  let st := safe_makedir st sample_dir
  let r1 := project_obj.add_sample sample_name sample_name
  let sample_obj := r1.1
  let project_obj := r1.2
  let dst_sample_fcid_dir := pjoin sample_dir fcRunId
  let st := safe_makedir st dst_sample_fcid_dir
  let r2 := sample_obj.add_fcid fcRunId fcRunId
  let fcid_obj := r2.1
  let sample_obj := r2.2
  let fastq_files := sample.files.filter isFastqFile
  let fcid_obj := fcid_obj.addFastqList fastq_files
  let sample_obj := { sample_obj with fcids := updateA sample_obj.fcids fcRunId fcid_obj }
  let project_obj := { project_obj with samples := updateA project_obj.samples sample_name sample_obj }
  (project_obj, st)

/-- One iteration of the sample loop (src lines 148-179): normalize the
sample name (src line 150), skip it (`continue`) when a non-empty sample
allow-list does not contain the normalized name, else run the body. -/
def processSample (fcRunId project_dir : String) (restrict_to_samples : List String)
    (acc : NGIProject × RState) (sample : SampleDesc) : NGIProject × RState :=
  let sample_name := pyReplace sample.sample_name "__" "."
  if restrict_to_samples ≠ [] ∧ sample_name ∉ restrict_to_samples then acc
  else processSampleBody fcRunId project_dir sample_name acc sample

/-- The non-skipped part of the project loop body (src lines 138-179):
create the project destination directory (idempotently), fetch or create
the project node keyed by the destination path, process the samples, and
write the mutated shared project object back into the dict. -/
def processProjectBody (analysis_top_dir fcRunId : String)
    (restrict_to_samples : List String)
    (acc : List (String × NGIProject) × RState) (project : ProjectDesc) :
    List (String × NGIProject) × RState :=
  let projs := acc.1
  let st := acc.2
  let project_dir := pjoin analysis_top_dir project.project_name
  let st := safe_makedir st project_dir
  let entry :=
    match lookupA projs project_dir with
    | some o => (o, projs)
    | none =>
      let o : NGIProject :=
        { name := project.project_name, dirname := project.project_name
          base_path := analysis_top_dir, samples := [] }
      (o, projs ++ [(project_dir, o)])
  let r := project.samples.foldl (processSample fcRunId project_dir restrict_to_samples) (entry.1, st)
  (updateA entry.2 project_dir r.1, r.2)

/-- One iteration of the project loop (src lines 132-137): skip the
project (`continue`) when a non-empty project allow-list does not contain
its name, else run the body. -/
def processProject (analysis_top_dir fcRunId : String)
    (restrict_to_projects restrict_to_samples : List String)
    (acc : List (String × NGIProject) × RState) (project : ProjectDesc) :
    List (String × NGIProject) × RState :=
  if restrict_to_projects ≠ [] ∧ project.project_name ∉ restrict_to_projects then acc
  else processProjectBody analysis_top_dir fcRunId restrict_to_samples acc project

/-- The run id `"{}_{}".format(fc_date, fc_name)` (src line 121). -/
def fcRunIdOf (fcds : FCDirStructure) : String :=
  fcds.fc_date ++ "_" ++ fcds.fc_name

/-- The part of `setup_analysis_directory_structure` after a successful
parse (src lines 119-180): copy the basecall statistics directories, then
reconcile every project of the description into the accumulating dict. -/
def reconcileParsed (fcds : FCDirStructure) (analysis_top_dir : String)
    (projects_to_analyze : List (String × NGIProject))
    (restrict_to_projects restrict_to_samples : List String) (st : RState) :
    List (String × NGIProject) × RState :=
  let st := copy_basecall_stats st analysis_top_dir
              (fcds.basecall_stats_dir.map (fun d => pjoin fcds.fc_dir d))
  fcds.projects.foldl
    (processProject analysis_top_dir (fcRunIdOf fcds) restrict_to_projects restrict_to_samples)
    (projects_to_analyze, st)

/-- A source tree root handed to `setup_analysis_directory_structure`:
either a path that does not exist, or a flowcell tree. -/
inductive SourceRoot where
  | missing (path : String)
  | present (tree : FCTree)
  deriving DecidableEq, Repr

/-- What `setup_analysis_directory_structure` hands back to its caller:
a raised exception, the literal `return []` of the early-error paths
(src lines 112 and 118 — an empty *list*, not the accumulated dict), or
the accumulated dict of project objects (src line 180). -/
inductive SetupResult where
  | raised (e : PyError)
  | emptyList
  | projectsDict (d : List (String × NGIProject))
  deriving DecidableEq, Repr

/-- `setup_analysis_directory_structure` (src lines 83-180): raise
`OSError` if the analysis top directory does not exist; `return []` if
the flowcell directory does not exist; `return []` if
`parse_casava_directory` raises `RuntimeError` (any other exception —
notably the samplesheet `AssertionError` — propagates uncaught); else
copy the stats directories and reconcile each project. -/
def setup_analysis_directory_structure (root : SourceRoot) (analysis_top_dir : String)
    (projects_to_analyze : List (String × NGIProject))
    (restrict_to_projects restrict_to_samples : List String) (st : RState) :
    SetupResult × RState :=
  if analysis_top_dir ∉ st.fsPaths then (.raised .osError, st)
  else
    match root with
    | .missing _ => (.emptyList, st)
    | .present t =>
      match parse_casava_directory t with
      | .error .runtimeError => (.emptyList, st)
      | .error e => (.raised e, st)
      | .ok fcds =>
        let r := reconcileParsed fcds analysis_top_dir projects_to_analyze
                   restrict_to_projects restrict_to_samples st
        (.projectsDict r.1, r.2)

/-- Does the read-indicator regex fragment `_(?:R\d|\d\.)` match at the
head of the character list? -/
def isReadIndicator : List Char → Bool
  | '_' :: 'R' :: d :: _ => d.isDigit
  | '_' :: d :: '.' :: _ => d.isDigit
  | _ => false

/-- `re.match(r'(.*)_(?:R\d|\d\.).*', name).groups()[0]`: the greedy
`(.*)` keeps everything before the *last* position where the
read-indicator fragment matches; `none` when the pattern does not match
at all. -/
def pairKeySplit : List Char → Option (List Char)
  | [] => none
  | c :: rest =>
    match pairKeySplit rest with
    | some k => some (c :: k)
    | none => if isReadIndicator (c :: rest) then some [] else none

/-- The pair key of a file basename under the primary rule of
`find_fastq_read_pairs` (src line 457). -/
def pairKeyOf (basename : String) : Option String :=
  (pairKeySplit basename.toList).map String.mk

/-- Append a value at a key of a `defaultdict(list)`, creating the key at
the end in insertion order if absent. -/
def dictAppend : List (String × List String) → String → String → List (String × List String)
  | [], k, v => [(k, [v])]
  | (k0, vs) :: rest, k, v =>
    if k0 = k then (k0, vs ++ [v]) :: rest
    else (k0, vs) :: dictAppend rest k v

/-- `find_fastq_read_pairs` (src lines 415-475).  `fileList` is the
`file_list` keyword argument, `dirListing` the result `glob` would
return for `os.path.join(directory, "*")` when a directory is given, and
`cwd` the working directory `os.path.abspath` resolves against.
Faithful to the source:
  * the guard `if not directory or file_list` (src line 433) raises
    `RuntimeError` whenever no directory is given *or* a file list is
    given, so a call that passes only `file_list` always raises;
  * an empty listing returns the empty dict (src line 448);
  * a basename the pair pattern cannot match enters the
    `except AttributeError` handler (src line 465), whose first statement
    formats the message with the undefined variable `file_fullname`,
    raising an uncaught `NameError` — the fallback grouping below it is
    unreachable. -/
def find_fastq_read_pairs (fileList : Option (List String))
    (dirListing : Option (List String)) (cwd : String) :
    Except PyError (List (String × List String)) :=
  if dirListing.isNone || fileList.isSome then .error .runtimeError
  else
    let file_list := dirListing.getD []
    if file_list.isEmpty then .ok []
    else
      let filtered := file_list.filter isFastqFile
      filtered.foldlM
        (fun acc file_pathname =>
          match pairKeyOf (pyBasename file_pathname) with
          | some pair_base => .ok (dictAppend acc pair_base (pyAbspath cwd file_pathname))
          | none => .error .nameError)
        []

/-- Match of `r'(?P<lane>\d)_\d{6}_\w{10}_(?P<project>P\d{3})_(?P<sample>\d{3}).*'`
(src line 381) against the start of a filename; every piece is
fixed-width so the match is positional.  `\w` is a word character:
letter, digit or underscore.  Returns the lane digit. -/
def sthlmMatch (cs : List Char) : Option Char :=
  match cs with
  | l0 :: u1 :: d1 :: d2 :: d3 :: d4 :: d5 :: d6 :: u2 ::
    w1 :: w2 :: w3 :: w4 :: w5 :: w6 :: w7 :: w8 :: w9 :: w10 :: u3 ::
    pP :: p1 :: p2 :: p3 :: u4 :: s1 :: s2 :: s3 :: _ =>
    if l0.isDigit && u1 == '_' &&
       [d1, d2, d3, d4, d5, d6].all Char.isDigit && u2 == '_' &&
       [w1, w2, w3, w4, w5, w6, w7, w8, w9, w10].all (fun c => c.isAlphanum || c == '_') &&
       u3 == '_' && pP == 'P' && [p1, p2, p3].all Char.isDigit &&
       u4 == '_' && [s1, s2, s3].all Char.isDigit
    then some l0 else none
  | _ => none

/-- Does `_L` followed by three digits start here? Returns the digits. -/
def lTokenAt : List Char → Option (List Char)
  | '_' :: 'L' :: a :: b :: c :: _ =>
    if a.isDigit && b.isDigit && c.isDigit then some [a, b, c] else none
  | _ => none

/-- `re.match(r'.*_L(?P<lane>\d{3}).*', name)`: the greedy `.*` makes the
*last* `_L<3 digits>` token win. -/
def lMatch : List Char → Option (List Char)
  | [] => none
  | c :: rest =>
    match lMatch rest with
    | some r => some r
    | none => lTokenAt (c :: rest)

/-- `parse_lane_from_filename` (src lines 358-393): try the Stockholm
pattern, then the `_L###` fallback, else raise `ValueError`. -/
def parse_lane_from_filename (sample_basename : String) : Except PyError String :=
  match sthlmMatch sample_basename.toList with
  | some lane => .ok (String.mk [lane])
  | none =>
    match lMatch sample_basename.toList with
    | some lane => .ok (String.mk lane)
    | none => .error .valueError

/-- Stated from the claim's words for comparison (claim C7): the first
pattern with the run-code field read as strictly alphanumeric
(`<10-char alphanumeric code>`) instead of the source's `\w{10}`. -/
def claimSthlmMatch (cs : List Char) : Option Char :=
  match cs with
  | l0 :: u1 :: d1 :: d2 :: d3 :: d4 :: d5 :: d6 :: u2 ::
    w1 :: w2 :: w3 :: w4 :: w5 :: w6 :: w7 :: w8 :: w9 :: w10 :: u3 ::
    pP :: p1 :: p2 :: p3 :: u4 :: s1 :: s2 :: s3 :: _ =>
    if l0.isDigit && u1 == '_' &&
       [d1, d2, d3, d4, d5, d6].all Char.isDigit && u2 == '_' &&
       [w1, w2, w3, w4, w5, w6, w7, w8, w9, w10].all Char.isAlphanum &&
       u3 == '_' && pP == 'P' && [p1, p2, p3].all Char.isDigit &&
       u4 == '_' && [s1, s2, s3].all Char.isDigit
    then some l0 else none
  | _ => none

/-- Stated from the claim's words for comparison (claim C9): strip a
leading `Sample_` (only as a prefix) and replace double underscores by
dots. -/
def claimNormalizeSampleName (raw : String) : String :=
  pyReplace (if strStartsWith raw "Sample_" then
               String.mk (raw.toList.drop "Sample_".toList.length)
             else raw) "__" "."

/-- The pattern text of src line 495, `\d{4,6}_(?P=<fcid>[A-Z0-9]{10})`.
The intended construct was surely the named group `(?P<fcid>...)`; as
written, `(?P=` opens a named *backreference* whose name runs to the
next closing parenthesis. -/
def flowcellPatternText : String := "\\d\x7b4,6\x7d_(?P=<fcid>[A-Z0-9]\x7b10\x7d)"

/-- Scan a pattern for a `(?P=` construct and return the characters up to
the next closing parenthesis — the group name Python's regex parser
reads. -/
def scanNamedBackref : List Char → Option (List Char)
  | '(' :: '?' :: 'P' :: '=' :: rest => some (rest.takeWhile (fun c => c ≠ ')'))
  | _ :: rest => scanNamedBackref rest
  | [] => none

/-- Python's identifier check for regex group names: nonempty, first
character a letter or underscore, rest word characters. -/
def isPyIdent : List Char → Bool
  | [] => false
  | c :: rest => (c.isAlpha || c == '_') && rest.all (fun d => d.isAlphanum || d == '_')

/-- Does `re.compile` reject the flowcell pattern?  It does: the
backreference group name it reads is `<fcid>[A-Z0-9]{10}`, which is not
an identifier, so compilation raises `re.error`. -/
def flowcellPatternCompileFails : Bool :=
  match scanNamedBackref flowcellPatternText.toList with
  | some name => !isPyIdent name
  | none => false

/-- Is the character in the class `[A-Z0-9]`? -/
def upAlnum (c : Char) : Bool := c.isUpper || c.isDigit

/-- Under the corrected `(?P<fcid>` reading: after the digits, an
underscore followed by ten `[A-Z0-9]` characters. -/
def fcidAfter : List Char → Option String
  | '_' :: a1 :: a2 :: a3 :: a4 :: a5 :: a6 :: a7 :: a8 :: a9 :: a10 :: _ =>
    if [a1, a2, a3, a4, a5, a6, a7, a8, a9, a10].all upAlnum then
      some (String.mk [a1, a2, a3, a4, a5, a6, a7, a8, a9, a10])
    else none
  | _ => none

/-- Under the corrected reading: `k` leading digits then the fcid. -/
def tryDigits (k : Nat) (cs : List Char) : Option String :=
  if (cs.take k).length = k && (cs.take k).all Char.isDigit then fcidAfter (cs.drop k)
  else none

/-- Under the corrected reading of `\d{4,6}_([A-Z0-9]{10})`: the greedy
quantifier tries six, then five, then four leading digits. -/
def flowcellMatchFixed (s : String) : Option String :=
  match tryDigits 6 s.toList with
  | some f => some f
  | none =>
    match tryDigits 5 s.toList with
    | some f => some f
    | none => tryDigits 4 s.toList

/-- `get_flowcell_id_from_dirtree` (src lines 478-506).  The function
compiles its pattern on every call; since the pattern text is rejected
by `re.compile` (see `flowcellPatternCompileFails`), every call raises
`re.error` before looking at the path.  The else-branch transcribes the
(unreachable) remainder of the function under the corrected
`(?P<fcid>` reading: split off the last path component, try it, then try
the next component up, else `ValueError`. -/
def get_flowcell_id_from_dirtree (path : String) : Except PyError String :=
  if flowcellPatternCompileFails then .error .reError
  else
    let s1 := pySplit path
    match flowcellMatchFixed s1.2 with
    | some f => .ok f
    | none =>
      let s2 := pySplit s1.1
      match flowcellMatchFixed s2.2 with
      | some f => .ok f
      | none => .error .valueError

/-! Helper lemmas. -/

theorem strEndsWith_head (f suf : String) (c : Char) (rest : List Char)
    (hsuf : suf.toList.reverse = c :: rest) (h : strEndsWith f suf = true) :
    f.toList.reverse.head? = some c := by
  unfold strEndsWith at h
  rw [hsuf] at h
  cases hr : f.toList.reverse with
  | nil =>
    rw [hr] at h
    simp [List.isPrefixOf] at h
  | cons d ds =>
    rw [hr] at h
    simp only [List.isPrefixOf, Bool.and_eq_true, beq_iff_eq] at h
    rw [h.1]
    rfl

theorem fastq_not_csv (f : String) (h : isFastqFile f = true) :
    strEndsWith f ".csv" = false := by
  by_contra hc
  rw [Bool.not_eq_false] at hc
  have hv := strEndsWith_head f ".csv" 'v' ['s', 'c', '.'] (by decide) hc
  unfold isFastqFile at h
  simp only [Bool.or_eq_true] at h
  rcases h with ((((((h | h) | h) | h) | h) | h) | h) | h
  · have hq := strEndsWith_head f ".fastq" 'q' ['t', 's', 'a', 'f', '.'] (by decide) h
    rw [hv] at hq; exact absurd hq (by decide)
  · have hq := strEndsWith_head f ".fq" 'q' ['f', '.'] (by decide) h
    rw [hv] at hq; exact absurd hq (by decide)
  · have hq := strEndsWith_head f ".fastq.gz" 'z' ['g', '.', 'q', 't', 's', 'a', 'f', '.'] (by decide) h
    rw [hv] at hq; exact absurd hq (by decide)
  · have hq := strEndsWith_head f ".fq.gz" 'z' ['g', '.', 'q', 'f', '.'] (by decide) h
    rw [hv] at hq; exact absurd hq (by decide)
  · have hq := strEndsWith_head f ".fastq.gzip" 'p' ['i', 'z', 'g', '.', 'q', 't', 's', 'a', 'f', '.'] (by decide) h
    rw [hv] at hq; exact absurd hq (by decide)
  · have hq := strEndsWith_head f ".fq.gzip" 'p' ['i', 'z', 'g', '.', 'q', 'f', '.'] (by decide) h
    rw [hv] at hq; exact absurd hq (by decide)
  · have hq := strEndsWith_head f ".fastq.bz2" '2' ['z', 'b', '.', 'q', 't', 's', 'a', 'f', '.'] (by decide) h
    rw [hv] at hq; exact absurd hq (by decide)
  · have hq := strEndsWith_head f ".fq.bz2" '2' ['z', 'b', '.', 'q', 'f', '.'] (by decide) h
    rw [hv] at hq; exact absurd hq (by decide)

theorem replaceFuel_no_occurrence (pat rep : List Char) :
    ∀ (l : List Char) (fuel : Nat), containsSub pat l = false →
      replaceFuel pat rep fuel l = l := by
  intro l
  induction l with
  | nil => intro fuel _; cases fuel <;> rfl
  | cons c cs ih =>
    intro fuel h
    unfold containsSub at h
    rw [Bool.or_eq_false_iff] at h
    cases fuel with
    | zero => rfl
    | succ n =>
      unfold replaceFuel
      simp [h.1, ih n h.2]

theorem replaceFuel_head_match (pat rep rest : List Char) (n : Nat) (hne : pat ≠ []) :
    replaceFuel pat rep (n + 1) (pat ++ rest) = rep ++ replaceFuel pat rep n rest := by
  cases hp : pat with
  | nil => exact absurd hp hne
  | cons a as =>
    rw [← hp]
    have hcons : pat ++ rest = a :: (as ++ rest) := by rw [hp]; rfl
    have hpre : pat.isPrefixOf (a :: (as ++ rest)) = true := by
      rw [← hcons]
      exact List.isPrefixOf_iff_prefix.mpr (List.prefix_append pat rest)
    have hnemp : pat.isEmpty = false := by rw [hp]; rfl
    rw [hcons]
    simp only [replaceFuel]
    rw [hpre, hnemp]
    simp only [Bool.not_false, Bool.and_true, if_true]
    rw [← hcons, List.drop_left]

theorem exceptMap_all_ok_or {α β : Type} (f : α → Except PyError β) (e : PyError) :
    ∀ l : List α, (∀ y ∈ l, f y = .error e ∨ ∃ b, f y = .ok b) →
      exceptMap f l = .error e ∨ ∃ bs, exceptMap f l = .ok bs := by
  intro l
  induction l with
  | nil => intro _; exact Or.inr ⟨[], rfl⟩
  | cons x xs ih =>
    intro hall
    rcases hall x (List.mem_cons_self x xs) with hx | ⟨b, hx⟩
    · left; unfold exceptMap; rw [hx]
    · rcases ih (fun y hy => hall y (List.mem_cons_of_mem x hy)) with ht | ⟨bs, ht⟩
      · left; unfold exceptMap; rw [hx, ht]
      · right; exact ⟨b :: bs, by unfold exceptMap; rw [hx, ht]⟩

theorem exceptMap_error_of_mem {α β : Type} (f : α → Except PyError β) (e : PyError)
    (l : List α) (x : α) (hx : x ∈ l) (hfx : f x = .error e)
    (hall : ∀ y ∈ l, f y = .error e ∨ ∃ b, f y = .ok b) :
    exceptMap f l = .error e := by
  induction l with
  | nil => cases hx
  | cons z zs ih =>
    rcases hall z (List.mem_cons_self z zs) with hz | ⟨b, hz⟩
    · unfold exceptMap; rw [hz]
    · have hxz : x ∈ zs := by
        rcases List.mem_cons.mp hx with rfl | hmem
        · rw [hfx] at hz; cases hz
        · exact hmem
      have ht := ih hxz (fun y hy => hall y (List.mem_cons_of_mem z hy))
      unfold exceptMap
      rw [hz, ht]

theorem parseSampleDir_ok_or_assert (sd : SampleDirFS) :
    parseSampleDir sd = .error .assertionError ∨ ∃ d, parseSampleDir sd = .ok d := by
  unfold parseSampleDir
  split
  · exact Or.inr ⟨_, rfl⟩
  · exact Or.inl rfl

theorem parseSampleDir_assert (sd : SampleDirFS)
    (h : (globSuffixFilter ".csv" sd.files).length ≠ 1) :
    parseSampleDir sd = .error .assertionError := by
  unfold parseSampleDir
  split
  · next sheet heq => exact absurd (by simp [heq] : (globSuffixFilter ".csv" sd.files).length = 1) h
  · rfl

theorem parseProjectDir_ok_or_assert (pd : ProjectDirFS) :
    parseProjectDir pd = .error .assertionError ∨ ∃ d, parseProjectDir pd = .ok d := by
  unfold parseProjectDir
  rcases exceptMap_all_ok_or parseSampleDir .assertionError pd.sample_dirs
      (fun y _ => parseSampleDir_ok_or_assert y) with h | ⟨bs, h⟩
  · rw [h]; exact Or.inl rfl
  · rw [h]; exact Or.inr ⟨_, rfl⟩

theorem parseProjectDir_assert (pd : ProjectDirFS) (s : SampleDirFS)
    (hs : s ∈ pd.sample_dirs)
    (hbad : (globSuffixFilter ".csv" s.files).length ≠ 1) :
    parseProjectDir pd = .error .assertionError := by
  unfold parseProjectDir
  rw [exceptMap_error_of_mem parseSampleDir .assertionError pd.sample_dirs s hs
      (parseSampleDir_assert s hbad) (fun y _ => parseSampleDir_ok_or_assert y)]

theorem sthlmMatch_some (cs : List Char) (lane : Char) (h : sthlmMatch cs = some lane) :
    lane.isDigit = true ∧ cs.head? = some lane := by
  unfold sthlmMatch at h
  split at h
  · split at h
    · next hcond =>
      obtain ⟨⟨⟨⟨⟨⟨⟨⟨⟨h1, -⟩, -⟩, -⟩, -⟩, -⟩, -⟩, -⟩, -⟩, -⟩ :=
        (by simpa only [Bool.and_eq_true] using hcond :
          (((((((((_ = true ∧ _) ∧ _) ∧ _) ∧ _) ∧ _) ∧ _) ∧ _) ∧ _) ∧ _))
      injection h with hl
      subst hl
      exact ⟨h1, rfl⟩
    · exact Option.noConfusion h
  · exact Option.noConfusion h

/-! Claim theorems. -/

/-- C1 (counterexample): the claim says a sample directory with zero
`*.csv` files fails only that sample while its sibling is still returned;
on the code, the `assert` aborts the whole parse, so no `RunDescription`
at all is produced for a tree whose project holds one bad sample
(`Sample_S0`, no csv) next to one good sibling (`Sample_S1`). -/
theorem c1_counterexample_sibling_lost :
    parse_casava_directory
      (FCTree.mk "/archive/131030_SN7001362_0103_BC2PUYACXX"
        (some "C2PUYACXX") (some "131030") (some "B") []
        [ProjectDirFS.mk "Unaligned" "Project_A_13_02"
          [SampleDirFS.mk "Sample_S0" ["a.fastq.gz"],
           SampleDirFS.mk "Sample_S1" ["b.fastq.gz", "SampleSheet.csv"]]])
      = Except.error PyError.assertionError := by decide

/-- C1 (amended): for every source tree with readable run metadata, if any
sample directory of any project has a `*.csv` count other than one, then
`parse_casava_directory` aborts the *entire* parse with an
`AssertionError`, and — because `setup_analysis_directory_structure`
catches only `RuntimeError` — the error escapes the per-tree handler as
a raised exception instead of being converted to a skipped tree. -/
theorem c1_amended_assert_aborts_whole_parse :
    ∀ (t : FCTree) (p : ProjectDirFS) (s : SampleDirFS)
      (topDir : String) (projs : List (String × NGIProject))
      (rp rs : List String) (st : RState),
      t.run_info_flowcell.isSome = true →
      t.run_info_date.isSome = true →
      t.runparams_fcpos.isSome = true →
      p ∈ t.project_dirs → s ∈ p.sample_dirs →
      (globSuffixFilter ".csv" s.files).length ≠ 1 →
      topDir ∈ st.fsPaths →
      parse_casava_directory t = Except.error PyError.assertionError ∧
      setup_analysis_directory_structure (SourceRoot.present t) topDir projs rp rs st
        = (SetupResult.raised PyError.assertionError, st) := by
  intro t p s topDir projs rp rs st hf hd hp hmem hsmem hbad htop
  have hparse : parse_casava_directory t = Except.error PyError.assertionError := by
    unfold parse_casava_directory
    rcases Option.isSome_iff_exists.mp hf with ⟨a, ha⟩
    rcases Option.isSome_iff_exists.mp hd with ⟨b, hb⟩
    rcases Option.isSome_iff_exists.mp hp with ⟨c, hc⟩
    rw [ha, hb, hc]
    rw [exceptMap_error_of_mem parseProjectDir PyError.assertionError t.project_dirs p hmem
        (parseProjectDir_assert p s hsmem hbad) (fun y _ => parseProjectDir_ok_or_assert y)]
  refine ⟨hparse, ?_⟩
  simp [setup_analysis_directory_structure, htop, hparse]

/-- C1 (witness): the amended theorem applied to the concrete
two-sample tree of the counterexample. -/
theorem c1_amended_assert_aborts_whole_parse_witness :
    parse_casava_directory
      (FCTree.mk "/archive/131030_SN7001362_0103_BC2PUYACXX"
        (some "C2PUYACXX") (some "131030") (some "B") []
        [ProjectDirFS.mk "Unaligned" "Project_A_13_02"
          [SampleDirFS.mk "Sample_S0" ["c.fastq.gz"],
           SampleDirFS.mk "Sample_S1" ["d.fastq.gz", "SampleSheet.csv"]]])
      = Except.error PyError.assertionError ∧
    setup_analysis_directory_structure
      (SourceRoot.present
        (FCTree.mk "/archive/131030_SN7001362_0103_BC2PUYACXX"
          (some "C2PUYACXX") (some "131030") (some "B") []
          [ProjectDirFS.mk "Unaligned" "Project_A_13_02"
            [SampleDirFS.mk "Sample_S0" ["c.fastq.gz"],
             SampleDirFS.mk "Sample_S1" ["d.fastq.gz", "SampleSheet.csv"]]]))
      "/top" [] [] [] (RState.mk ["/top"] [])
      = (SetupResult.raised PyError.assertionError, RState.mk ["/top"] []) := by
  exact c1_amended_assert_aborts_whole_parse
    (FCTree.mk "/archive/131030_SN7001362_0103_BC2PUYACXX"
      (some "C2PUYACXX") (some "131030") (some "B") []
      [ProjectDirFS.mk "Unaligned" "Project_A_13_02"
        [SampleDirFS.mk "Sample_S0" ["c.fastq.gz"],
         SampleDirFS.mk "Sample_S1" ["d.fastq.gz", "SampleSheet.csv"]]])
    (ProjectDirFS.mk "Unaligned" "Project_A_13_02"
      [SampleDirFS.mk "Sample_S0" ["c.fastq.gz"],
       SampleDirFS.mk "Sample_S1" ["d.fastq.gz", "SampleSheet.csv"]])
    (SampleDirFS.mk "Sample_S0" ["c.fastq.gz"])
    "/top" [] [] [] (RState.mk ["/top"] [])
    (by decide) (by decide) (by decide) (by decide) (by decide) (by decide) (by decide)

/-- C2: the claim says a missing source root returns the hierarchy
accumulated so far; on the code, `return []` (src line 112) hands back a
fresh empty list, discarding the caller's accumulated dict (here one
already-reconciled project). -/
theorem c2_missing_root_returns_empty_list :
    setup_analysis_directory_structure (SourceRoot.missing "/data/run2") "/top"
        [("/top/A_13_02", NGIProject.mk "A_13_02" "A_13_02" "/top" [])] [] []
        (RState.mk ["/top"] [])
      = (SetupResult.emptyList, RState.mk ["/top"] []) ∧
    SetupResult.emptyList
      ≠ SetupResult.projectsDict [("/top/A_13_02", NGIProject.mk "A_13_02" "A_13_02" "/top" [])] := by
  decide

/-- C3: inserting a child under a name already bound (generic
`_add_subitem`, and its `add_sample`/`add_fcid` instances) returns the
existing child and leaves the container — including the run's file
list — unchanged. -/
theorem c3_idempotent_upsert :
    (∀ (α : Type) (subs : List (String × α)) (mk : String → String → α) (n d : String) (c : α),
       lookupA subs n = some c → addSubitem subs mk n d = (c, subs)) ∧
    (∀ (p : NGIProject) (n d : String) (s : NGISample),
       lookupA p.samples n = some s → p.add_sample n d = (s, p)) ∧
    (∀ (smp : NGISample) (n d : String) (f : NGIFCID),
       lookupA smp.fcids n = some f →
         smp.add_fcid n d = (f, smp) ∧ (smp.add_fcid n d).1.fastqs = f.fastqs) := by
  refine ⟨?_, ?_, ?_⟩
  · intro α subs mk n d c h
    unfold addSubitem
    rw [h]
  · intro p n d s h
    simp [NGIProject.add_sample, addSubitem, h]
  · intro smp n d f h
    constructor <;> simp [NGISample.add_fcid, addSubitem, h]

/-- C3 (witness): the idempotent upsert at a concrete project, sample and
run with a nonempty file list. -/
theorem c3_idempotent_upsert_witness :
    (NGIProject.mk "A_13_02" "A_13_02" "/top"
        [("S1", NGISample.mk "S1" "S1" [("131030_BC2PUYACXX", NGIFCID.mk "131030_BC2PUYACXX" "131030_BC2PUYACXX" ["a.fastq.gz"])])]).add_sample "S1" "S1"
      = (NGISample.mk "S1" "S1" [("131030_BC2PUYACXX", NGIFCID.mk "131030_BC2PUYACXX" "131030_BC2PUYACXX" ["a.fastq.gz"])],
         NGIProject.mk "A_13_02" "A_13_02" "/top"
           [("S1", NGISample.mk "S1" "S1" [("131030_BC2PUYACXX", NGIFCID.mk "131030_BC2PUYACXX" "131030_BC2PUYACXX" ["a.fastq.gz"])])]) ∧
    (NGISample.mk "S1" "S1" [("R1", NGIFCID.mk "R1" "R1" ["a.fastq.gz"])]).add_fcid "R1" "R1"
      = (NGIFCID.mk "R1" "R1" ["a.fastq.gz"], NGISample.mk "S1" "S1" [("R1", NGIFCID.mk "R1" "R1" ["a.fastq.gz"])]) ∧
    ((NGISample.mk "S1" "S1" [("R1", NGIFCID.mk "R1" "R1" ["a.fastq.gz"])]).add_fcid "R1" "R1").1.fastqs
      = ["a.fastq.gz"] := by
  refine ⟨c3_idempotent_upsert.2.1 _ "S1" "S1" _ (by decide), ?_, ?_⟩
  · exact (c3_idempotent_upsert.2.2 _ "R1" "R1" (NGIFCID.mk "R1" "R1" ["a.fastq.gz"]) (by decide)).1
  · exact (c3_idempotent_upsert.2.2 _ "R1" "R1" (NGIFCID.mk "R1" "R1" ["a.fastq.gz"]) (by decide)).2

/-- C4: reconciling two parsed descriptions that name the same project
and sample but distinct run ids into one (initially empty) hierarchy
yields exactly one project node, exactly one sample node and two run
nodes, each run's file list being exactly the fastq-suffixed filenames
of its own description; no `.csv` name can appear in either list. -/
theorem c4_merge_across_runs :
    ∀ (fcDir1 fcDir2 fcName1 fcName2 fcDate1 fcDate2 topDir pn snRaw : String)
      (dd1 dd2 pdir1 pdir2 sdir1 sdir2 sheet1 sheet2 : String)
      (files1 files2 stats1 stats2 : List String) (st0 : RState),
      fcDate1 ++ "_" ++ fcName1 ≠ fcDate2 ++ "_" ++ fcName2 →
      (reconcileParsed
          (FCDirStructure.mk fcDir2 fcName2 fcDate2 stats2
            [ProjectDesc.mk dd2 pdir2 pn [SampleDesc.mk sdir2 snRaw files2 sheet2]])
          topDir
          (reconcileParsed
            (FCDirStructure.mk fcDir1 fcName1 fcDate1 stats1
              [ProjectDesc.mk dd1 pdir1 pn [SampleDesc.mk sdir1 snRaw files1 sheet1]])
            topDir [] [] [] st0).1
          [] []
          (reconcileParsed
            (FCDirStructure.mk fcDir1 fcName1 fcDate1 stats1
              [ProjectDesc.mk dd1 pdir1 pn [SampleDesc.mk sdir1 snRaw files1 sheet1]])
            topDir [] [] [] st0).2).1
        = [(pjoin topDir pn,
            NGIProject.mk pn pn topDir
              [(pyReplace snRaw "__" ".",
                NGISample.mk (pyReplace snRaw "__" ".") (pyReplace snRaw "__" ".")
                  [(fcDate1 ++ "_" ++ fcName1,
                    NGIFCID.mk (fcDate1 ++ "_" ++ fcName1) (fcDate1 ++ "_" ++ fcName1)
                      (files1.filter isFastqFile)),
                   (fcDate2 ++ "_" ++ fcName2,
                    NGIFCID.mk (fcDate2 ++ "_" ++ fcName2) (fcDate2 ++ "_" ++ fcName2)
                      (files2.filter isFastqFile))])])] ∧
      (∀ f ∈ files1.filter isFastqFile, strEndsWith f ".csv" = false) ∧
      (∀ f ∈ files2.filter isFastqFile, strEndsWith f ".csv" = false) := by
  intro fcDir1 fcDir2 fcName1 fcName2 fcDate1 fcDate2 topDir pn snRaw
    dd1 dd2 pdir1 pdir2 sdir1 sdir2 sheet1 sheet2 files1 files2 stats1 stats2 st0 hne
  refine ⟨?_, ?_, ?_⟩
  · simp only [reconcileParsed, fcRunIdOf, processProject, processProjectBody, processSample,
      processSampleBody, NGIProject.add_sample, NGISample.add_fcid, addSubitem,
      mkNGISample, mkNGIFCID, NGIFCID.addFastqList, lookupA, updateA,
      List.foldl_cons, List.foldl_nil, List.nil_append, ne_eq, not_true_eq_false, false_and,
      if_false, hne, if_true]
  · exact fun f hf => fastq_not_csv f (List.of_mem_filter hf)
  · exact fun f hf => fastq_not_csv f (List.of_mem_filter hf)

/-- C4 (witness): the merge at the spec's end-to-end scenario — one
project `A_13_02`, one sample `S1` with two fastq files and one csv,
reconciled under two different run ids. -/
theorem c4_merge_across_runs_witness :
    (reconcileParsed
        (FCDirStructure.mk "/archive/run2" "AH8AMJADXX" "140220" []
          [ProjectDesc.mk "Unaligned" "Project_A_13_02" "A_13_02"
            [SampleDesc.mk "Sample_S1" "S1" ["b1.fastq.gz", "b2.fastq.gz", "SampleSheet.csv"] "SampleSheet.csv"]])
        "/top"
        (reconcileParsed
          (FCDirStructure.mk "/archive/run1" "BC2PUYACXX" "131030" []
            [ProjectDesc.mk "Unaligned" "Project_A_13_02" "A_13_02"
              [SampleDesc.mk "Sample_S1" "S1" ["a1.fastq.gz", "a2.fastq.gz", "SampleSheet.csv"] "SampleSheet.csv"]])
          "/top" [] [] [] (RState.mk ["/top"] [])).1
        [] []
        (reconcileParsed
          (FCDirStructure.mk "/archive/run1" "BC2PUYACXX" "131030" []
            [ProjectDesc.mk "Unaligned" "Project_A_13_02" "A_13_02"
              [SampleDesc.mk "Sample_S1" "S1" ["a1.fastq.gz", "a2.fastq.gz", "SampleSheet.csv"] "SampleSheet.csv"]])
          "/top" [] [] [] (RState.mk ["/top"] [])).2).1
      = [(pjoin "/top" "A_13_02",
          NGIProject.mk "A_13_02" "A_13_02" "/top"
            [(pyReplace "S1" "__" ".",
              NGISample.mk (pyReplace "S1" "__" ".") (pyReplace "S1" "__" ".")
                [("131030" ++ "_" ++ "BC2PUYACXX",
                  NGIFCID.mk ("131030" ++ "_" ++ "BC2PUYACXX") ("131030" ++ "_" ++ "BC2PUYACXX")
                    (["a1.fastq.gz", "a2.fastq.gz", "SampleSheet.csv"].filter isFastqFile)),
                 ("140220" ++ "_" ++ "AH8AMJADXX",
                  NGIFCID.mk ("140220" ++ "_" ++ "AH8AMJADXX") ("140220" ++ "_" ++ "AH8AMJADXX")
                    (["b1.fastq.gz", "b2.fastq.gz", "SampleSheet.csv"].filter isFastqFile))])])] ∧
    strEndsWith "a1.fastq.gz" ".csv" = false := by
  have h := c4_merge_across_runs "/archive/run1" "/archive/run2" "BC2PUYACXX" "AH8AMJADXX"
    "131030" "140220" "/top" "A_13_02" "S1" "Unaligned" "Unaligned"
    "Project_A_13_02" "Project_A_13_02" "Sample_S1" "Sample_S1" "SampleSheet.csv" "SampleSheet.csv"
    ["a1.fastq.gz", "a2.fastq.gz", "SampleSheet.csv"] ["b1.fastq.gz", "b2.fastq.gz", "SampleSheet.csv"]
    [] [] (RState.mk ["/top"] []) (by decide)
  exact ⟨h.1, h.2.1 "a1.fastq.gz" (by decide)⟩

/-- C5: on the code, (i) passing the claim's example pair as `file_list`
raises `RuntimeError` from the inverted argument guard; (ii) fed through
a directory listing, the two example files do share a pair key and land
in one group together; (iii) a file the read-indicator pattern cannot key
raises an uncaught `NameError` (undefined `file_fullname`) instead of
being grouped under its fallback key. -/
theorem c5_read_pair_resolver_bugs :
    find_fastq_read_pairs
        (some ["1_131129_BH7VPTADXX_P602_101_1.fastq.gz", "1_131129_BH7VPTADXX_P602_101_2.fastq.gz"])
        none "/proj" = Except.error PyError.runtimeError ∧
    find_fastq_read_pairs none
        (some ["1_131129_BH7VPTADXX_P602_101_1.fastq.gz", "1_131129_BH7VPTADXX_P602_101_2.fastq.gz"])
        "/proj"
      = Except.ok [("1_131129_BH7VPTADXX_P602_101",
          ["/proj/1_131129_BH7VPTADXX_P602_101_1.fastq.gz",
           "/proj/1_131129_BH7VPTADXX_P602_101_2.fastq.gz"])] ∧
    find_fastq_read_pairs none (some ["odd.fastq"]) "/proj"
      = Except.error PyError.nameError := by
  decide

/-- C6: `re.compile` rejects the pattern of src line 495 (the
`(?P=<fcid>` construct reads `<fcid>[A-Z0-9]{10}` as a backreference
group name, which is not an identifier), so
`get_flowcell_id_from_dirtree` raises `re.error` on every input instead
of ever returning a flowcell id or a `ValueError`. -/
theorem c6_flowcell_id_always_re_error :
    flowcellPatternCompileFails = true ∧
    ∀ path : String, get_flowcell_id_from_dirtree path = Except.error PyError.reError := by
  refine ⟨by decide, fun path => ?_⟩
  have h : flowcellPatternCompileFails = true := by decide
  simp [get_flowcell_id_from_dirtree, h]

/-- C7 (counterexample): the filename
`1_123456_ABCD_EFGHI_P123_456.fastq.gz` matches neither of the claim's
two patterns (its 10-character run-code field `ABCD_EFGHI` is not
alphanumeric and there is no `_L###` token), so the claim predicts a
`ValueError`; the code's `\w{10}` accepts the underscore and returns
lane `1`. -/
theorem c7_counterexample_word_char_run_code :
    parse_lane_from_filename "1_123456_ABCD_EFGHI_P123_456.fastq.gz" = Except.ok "1" ∧
    claimSthlmMatch "1_123456_ABCD_EFGHI_P123_456.fastq.gz".toList = none ∧
    lMatch "1_123456_ABCD_EFGHI_P123_456.fastq.gz".toList = none ∧
    parse_lane_from_filename "1_123456_ABCD_EFGHI_P123_456.fastq.gz"
      ≠ Except.error PyError.valueError := by
  decide

/-- C7 (amended): with the run-code field read as ten *word* characters
(letter, digit or underscore — Python `\w`), the lane parser first tries
the Stockholm pattern (returning its leading lane digit), then the
`_L###` fallback, and raises `ValueError` when neither matches; the two
example filenames give lanes `1` and `001`. -/
theorem c7_amended_lane_extraction :
    parse_lane_from_filename "1_140220_AH8AMJADXX_P673_101_1.fastq.gz" = Except.ok "1" ∧
    parse_lane_from_filename "P567_102_AAAAAA_L001_R1_001.fastq.gz" = Except.ok "001" ∧
    (∀ (s : String) (lane : Char), sthlmMatch s.toList = some lane →
       parse_lane_from_filename s = Except.ok (String.mk [lane]) ∧
       lane.isDigit = true ∧ s.toList.head? = some lane) ∧
    (∀ (s : String) (lane3 : List Char), sthlmMatch s.toList = none →
       lMatch s.toList = some lane3 →
       parse_lane_from_filename s = Except.ok (String.mk lane3)) ∧
    (∀ s : String, sthlmMatch s.toList = none → lMatch s.toList = none →
       parse_lane_from_filename s = Except.error PyError.valueError) := by
  refine ⟨by decide, by decide, ?_, ?_, ?_⟩
  · intro s lane h
    refine ⟨?_, sthlmMatch_some s.toList lane h⟩
    unfold parse_lane_from_filename
    rw [h]
  · intro s lane3 h1 h2
    unfold parse_lane_from_filename
    rw [h1, h2]
  · intro s h1 h2
    unfold parse_lane_from_filename
    rw [h1, h2]

/-- C7 (witness): the amended lane parser at three concrete filenames,
one per hypothesis-bearing case. -/
theorem c7_amended_lane_extraction_witness :
    parse_lane_from_filename "1_140220_AH8AMJADXX_P673_101_1.fastq.gz"
      = Except.ok (String.mk ['1']) ∧
    parse_lane_from_filename "P567_102_AAAAAA_L001_R1_001.fastq.gz"
      = Except.ok (String.mk ['0', '0', '1']) ∧
    parse_lane_from_filename "hello.txt" = Except.error PyError.valueError := by
  refine ⟨(c7_amended_lane_extraction.2.2.1 "1_140220_AH8AMJADXX_P673_101_1.fastq.gz" '1' (by decide)).1,
          c7_amended_lane_extraction.2.2.2.1 "P567_102_AAAAAA_L001_R1_001.fastq.gz" ['0', '0', '1'] (by decide) (by decide),
          c7_amended_lane_extraction.2.2.2.2 "hello.txt" (by decide) (by decide)⟩

/-- C8: with a non-empty project allow-list, a project whose name is not
listed is a complete no-op (no directory creation, no hierarchy node);
likewise for a sample whose normalized name is not in a non-empty sample
allow-list; with empty lists the loop bodies always run. -/
theorem c8_allow_list_filtering :
    (∀ (topDir runId : String) (rp rs : List String)
       (projs : List (String × NGIProject)) (st : RState) (p : ProjectDesc),
       rp ≠ [] → p.project_name ∉ rp →
       processProject topDir runId rp rs (projs, st) p = (projs, st)) ∧
    (∀ (runId projectDir : String) (rs : List String)
       (pObj : NGIProject) (st : RState) (smp : SampleDesc),
       rs ≠ [] → pyReplace smp.sample_name "__" "." ∉ rs →
       processSample runId projectDir rs (pObj, st) smp = (pObj, st)) ∧
    (∀ (topDir runId : String) (rs : List String)
       (acc : List (String × NGIProject) × RState) (p : ProjectDesc),
       processProject topDir runId [] rs acc p = processProjectBody topDir runId rs acc p) ∧
    (∀ (runId projectDir : String) (acc : NGIProject × RState) (smp : SampleDesc),
       processSample runId projectDir [] acc smp
         = processSampleBody runId projectDir (pyReplace smp.sample_name "__" ".") acc smp) := by
  refine ⟨?_, ?_, ?_, ?_⟩
  · intro topDir runId rp rs projs st p h1 h2
    unfold processProject
    rw [if_pos ⟨h1, h2⟩]
  · intro runId projectDir rs pObj st smp h1 h2
    simp only [processSample]
    rw [if_pos ⟨h1, h2⟩]
  · intro topDir runId rs acc p
    unfold processProject
    rw [if_neg (fun hcon => hcon.1 rfl)]
  · intro runId projectDir acc smp
    simp only [processSample]
    rw [if_neg (fun hcon => hcon.1 rfl)]

/-- C8 (witness): a filtered-out project and a filtered-out sample are
no-ops at concrete inputs. -/
theorem c8_allow_list_filtering_witness :
    processProject "/top" "131030_BC2PUYACXX" ["OtherProject"] [] ([], RState.mk ["/top"] [])
        (ProjectDesc.mk "Unaligned" "Project_X_13_04" "X_13_04" [])
      = ([], RState.mk ["/top"] []) ∧
    processSample "131030_BC2PUYACXX" "/top/X_13_04" ["OtherSample"]
        (NGIProject.mk "X_13_04" "X_13_04" "/top" [], RState.mk ["/top"] [])
        (SampleDesc.mk "Sample_P1__A" "P1__A" ["x.fastq.gz"] "SampleSheet.csv")
      = (NGIProject.mk "X_13_04" "X_13_04" "/top" [], RState.mk ["/top"] []) := by
  exact ⟨c8_allow_list_filtering.1 "/top" "131030_BC2PUYACXX" ["OtherProject"] [] [] (RState.mk ["/top"] [])
           (ProjectDesc.mk "Unaligned" "Project_X_13_04" "X_13_04" []) (by decide) (by decide),
         c8_allow_list_filtering.2.1 "131030_BC2PUYACXX" "/top/X_13_04" ["OtherSample"]
           (NGIProject.mk "X_13_04" "X_13_04" "/top" []) (RState.mk ["/top"] [])
           (SampleDesc.mk "Sample_P1__A" "P1__A" ["x.fastq.gz"] "SampleSheet.csv") (by decide) (by decide)⟩

/-- C9 (counterexample): the claim says the normalization strips the
`Sample_` *prefix*; `str.replace` removes every occurrence, so a
directory name with a second `Sample_` marker inside gives different
results (`XY` from the code vs `XSample_Y` from the claim's words). -/
theorem c9_counterexample_nonprefix_occurrence :
    normalizeSampleName "Sample_XSample_Y" = "XY" ∧
    claimNormalizeSampleName "Sample_XSample_Y" = "XSample_Y" ∧
    ¬ normalizeSampleName "Sample_XSample_Y" = claimNormalizeSampleName "Sample_XSample_Y" := by
  decide

/-- C9 (amended): the normalization removes *every* occurrence of the
`Sample_`/`Project_` marker and then replaces each double underscore,
left to right, with a dot; when the marker occurs only as the leading
prefix this coincides with the claim's strip-the-prefix reading, and the
spec's examples hold. -/
theorem c9_amended_normalization :
    normalizeSampleName "Sample_P680__NR" = "P680.NR" ∧
    normalizeProjectName "Project_J__Bjorkegren_13_02" = "J.Bjorkegren_13_02" ∧
    (∀ (raw : String) (tail : List Char),
       raw.toList = "Sample_".toList ++ tail →
       containsSub "Sample_".toList tail = false →
       normalizeSampleName raw = claimNormalizeSampleName raw) := by
  refine ⟨by decide, by decide, ?_⟩
  intro raw tail h hno
  have h7 : ("Sample_".toList).length = 7 := by decide
  have hinner : pyReplace raw "Sample_" "" = String.mk tail := by
    unfold pyReplace
    rw [h, List.length_append, h7]
    have hs : 7 + tail.length = tail.length + 6 + 1 := by omega
    rw [hs]
    rw [replaceFuel_head_match "Sample_".toList "".toList tail (tail.length + 6) (by decide)]
    rw [replaceFuel_no_occurrence "Sample_".toList "".toList tail (tail.length + 6) hno]
    rfl
  have hstrip : String.mk (raw.toList.drop ("Sample_".toList).length) = String.mk tail := by
    rw [h, List.drop_left]
  have hpre : strStartsWith raw "Sample_" = true := by
    unfold strStartsWith
    rw [h]
    exact List.isPrefixOf_iff_prefix.mpr (List.prefix_append _ _)
  unfold normalizeSampleName claimNormalizeSampleName
  rw [hinner, if_pos hpre, hstrip]

/-- C9 (witness): the amended prefix-only agreement applied at
`Sample_P680__NR`. -/
theorem c9_amended_normalization_witness :
    normalizeSampleName "Sample_P680__NR" = claimNormalizeSampleName "Sample_P680__NR" := by
  exact c9_amended_normalization.2.2 "Sample_P680__NR" "P680__NR".toList (by decide) (by decide)

/-- C10: `add_fastq_files` appends all elements of a list argument in
order, appends a string argument as one filename, and raises `TypeError`
for any other runtime type, producing no modified run (the `extend`
mutation is never reached, so the file list is unchanged). -/
theorem c10_add_fastq_files_typed :
    ∀ f : NGIFCID,
      (∀ l, f.add_fastq_files (PyVal.list l) = Except.ok { f with fastqs := f.fastqs ++ l }) ∧
      (∀ s, f.add_fastq_files (PyVal.str s) = Except.ok { f with fastqs := f.fastqs ++ [s] }) ∧
      (∀ v : PyVal, (∀ l, v ≠ PyVal.list l) → (∀ s, v ≠ PyVal.str s) →
        f.add_fastq_files v = Except.error PyError.typeError) := by
  intro f
  refine ⟨fun l => rfl, fun s => rfl, ?_⟩
  intro v h1 h2
  cases v with
  | str s => exact absurd rfl (h2 s)
  | list l => exact absurd rfl (h1 l)
  | int n => rfl
  | pyNone => rfl

/-- C10 (witness): an `int` argument raises `TypeError` at a concrete
run. -/
theorem c10_add_fastq_files_typed_witness :
    (NGIFCID.mk "R1" "R1" ["a.fastq.gz"]).add_fastq_files (PyVal.int 3)
      = Except.error PyError.typeError := by
  exact (c10_add_fastq_files_typed (NGIFCID.mk "R1" "R1" ["a.fastq.gz"])).2.2 (PyVal.int 3)
    (fun l hl => PyVal.noConfusion hl) (fun s hs => PyVal.noConfusion hs)

end NGI
